import Mathlib

/- Verification development for the pygasus object-relational mapper.
   The definitions below are a shallow embedding of the Python source:
   pygasus/schema/mapper.py, pygasus/schema/field.py, pygasus/schema/schema.py,
   pygasus/schema/model.py, pygasus/schema/database.py,
   pygasus/schema/transaction.py, pygasus/query/query.py and
   pygasus/engine/sqlite/engine.py.  Python runtime values are modelled by
   the PVal type, Python exceptions by PyErr, and dictionaries by
   association lists that keep insertion order, as Python dicts do. -/

namespace Pygasus

/- Basic value model.  Scalar field values in the source are Python objects;
   the claims only need None, integers and strings.  A read of an unset
   attribute returns None in the source (dict.get), so absent memory cells
   and stored None are both represented by pnone, matching dict.get. -/

inductive PVal where
  | pnone : PVal
  | pint (n : Int) : PVal
  | pstr (s : String) : PVal
  deriving DecidableEq, Repr

/- Object identity: a model instance is identified by its object id.
   Model classes are identified by name. -/

abbrev Inst := Nat

abbrev ModelId := String

/- Association-list counterparts of the Python dict operations used by the
   source: lookup, insert-or-replace (keeping position, appending new keys,
   like dict assignment), and removal of a key (dict.pop). -/

def lookupA {α β : Type} [DecidableEq α] : List (α × β) → α → Option β
  | [], _ => none
  | (k', v) :: rest, k => if k' = k then some v else lookupA rest k

def assocSet {α β : Type} [DecidableEq α] : List (α × β) → α → β → List (α × β)
  | [], k, v => [(k, v)]
  | (k', v') :: rest, k, v =>
      if k' = k then (k, v) :: rest else (k', v') :: assocSet rest k v

def eraseA {α β : Type} [DecidableEq α] : List (α × β) → α → List (α × β)
  | [], _ => []
  | (k', v) :: rest, k => if k' = k then rest else (k', v) :: eraseA rest k

/- Python exceptions raised by the modelled code.  attributeError stands for
   AttributeError, keyError for KeyError, valueError for the ValueError
   raised on definition errors, and the three InvalidArgument subclasses of
   pygasus/exceptions.py appear by name.  userError stands for an arbitrary
   exception raised by user code inside a transaction scope. -/

inductive PyErr where
  | attributeError : PyErr
  | keyError : PyErr
  | valueError : PyErr
  | setByDatabase : PyErr
  | missingArgument (field : String) : PyErr
  | forbiddenArgument (field : String) : PyErr
  | userError : PyErr
  deriving DecidableEq, Repr

/- The argument passed to IDMapper.get, IDMapper.set and IDMapper.delete.
   The methods of mapper.py document the parameter as a dict of primary
   fields and start by computing tuple(primary.values()).  Every call site
   in the source, however, passes the tuple Model._primary_values or
   MetaModel._primary_values_from_dict, and HasOne code can even pass None.
   PrimArg keeps the three shapes apart so that the embedding can reproduce
   the resulting behaviour exactly: .values() succeeds on a dict and raises
   AttributeError on a tuple or on None. -/

inductive PrimArg where
  | dict (entries : List (String × PVal)) : PrimArg
  | tup (key : List PVal) : PrimArg
  | pynone : PrimArg
  deriving DecidableEq, Repr

def PrimArg.values : PrimArg → Except PyErr (List PVal)
  | .dict entries => .ok (entries.map Prod.snd)
  | .tup _ => .error PyErr.attributeError
  | .pynone => .error PyErr.attributeError

/- IDMapper (pygasus/schema/mapper.py).  self.objects is a dict from model
   class to a dict from primary-value tuple to instance. -/

structure IDMapper where
  objects : List (ModelId × List (List PVal × Inst))
  deriving DecidableEq, Repr

def IDMapper.get (m : IDMapper) (model : ModelId) (primary : PrimArg) :
    Except PyErr (Option Inst) :=
  match primary.values with
  | .error e => .error e
  | .ok key => .ok (lookupA ((lookupA m.objects model).getD []) key)

/- IDMapper.set first calls self.get(model, primary); a truthy result makes
   it return without writing.  Stored instances are model objects, which are
   always truthy in Python, so truthiness is modelled by isSome. -/

def IDMapper.set (m : IDMapper) (model : ModelId) (primary : PrimArg)
    (inst : Inst) : Except PyErr IDMapper :=
  match m.get model primary with
  | .error e => .error e
  | .ok (some _) => .ok m
  | .ok none =>
    match primary.values with
    | .error e => .error e
    | .ok key =>
      let bucket := (lookupA m.objects model).getD []
      .ok { objects := assocSet m.objects model (assocSet bucket key inst) }

/- IDMapper.delete computes tuple(primary.values()) first, returns None when
   the model has no bucket at all, and otherwise calls objects.pop(fields)
   with no default, so a missing key raises KeyError. -/

def IDMapper.delete (m : IDMapper) (model : ModelId) (primary : PrimArg) :
    Except PyErr (Option Inst × IDMapper) :=
  match primary.values with
  | .error e => .error e
  | .ok key =>
    match lookupA m.objects model with
    | none => .ok (none, m)
    | some bucket =>
      match lookupA bucket key with
      | none => .error PyErr.keyError
      | some inst =>
          .ok (some inst, { objects := assocSet m.objects model (eraseA bucket key) })

/- Field declarations (pygasus/schema/field.py and schema.py).  A field has
   a name, a semantic value type, a primary-key marker and an optional
   default (default none models the _NOT_SET sentinel; a Python default of
   None is some pnone). -/

inductive FType where
  | tInt : FType
  | tStr : FType
  | tFloat : FType
  | tBytes : FType
  | tDate : FType
  | tTimestamp : FType
  deriving DecidableEq, Repr

structure FieldInfo where
  name : String
  ftype : FType
  primaryKey : Bool
  default : Option PVal
  deriving DecidableEq, Repr

/- Field.set_by_database: self.field_type is int and self.primary_key. -/

def FieldInfo.set_by_database (f : FieldInfo) : Bool :=
  if f.ftype = FType.tInt then f.primaryKey else false

/- Field.has_default: self.default is not _NOT_SET. -/

def FieldInfo.has_default (f : FieldInfo) : Bool :=
  f.default.isSome

/- ModelSchema.bind (pygasus/schema/schema.py lines 188 to 211), keyword
   path only: all claim scenarios call bind with empty positional args, in
   which case the positional loop at lines 165 to 186 does nothing.  The
   loop below walks the schema fields in declaration order, exactly like the
   source: a missing value is skipped when not full, filled from the default
   when one exists, skipped when the field is set by the database, and
   otherwise raises MissingArgument; a supplied value for a set-by-database
   field raises ForbiddenArgument when full. -/

def bindFields (fields : List FieldInfo) (kwargs : List (String × PVal))
    (full : Bool) : Except PyErr (List (String × PVal)) :=
  match fields with
  | [] => .ok []
  | f :: rest =>
    match lookupA kwargs f.name with
    | none =>
      if !full then bindFields rest kwargs full
      else
        match f.default with
        | some d =>
          match bindFields rest kwargs full with
          | .error e => .error e
          | .ok tail => .ok ((f.name, d) :: tail)
        | none =>
          if f.set_by_database then bindFields rest kwargs full
          else .error (PyErr.missingArgument f.name)
    | some v =>
      if full && f.set_by_database then .error (PyErr.forbiddenArgument f.name)
      else
        match bindFields rest kwargs full with
        | .error e => .error e
        | .ok tail => .ok ((f.name, v) :: tail)

/- Spec-side predicates on a field with respect to a keyword binding: a
   required field that got no value and has no default and is not assigned
   by storage, and a supplied value for a storage-assigned field. -/

def missingRequiredB (kwargs : List (String × PVal)) (f : FieldInfo) : Bool :=
  (lookupA kwargs f.name).isNone && f.default.isNone && !f.set_by_database

def suppliedForbiddenB (kwargs : List (String × PVal)) (f : FieldInfo) : Bool :=
  (lookupA kwargs f.name).isSome && f.set_by_database

/- Error-kind observers for bind results. -/

def isMissingError {α : Type} : Except PyErr α → Bool
  | .error (PyErr.missingArgument _) => true
  | _ => false

def isForbiddenError {α : Type} : Except PyErr α → Bool
  | .error (PyErr.forbiddenArgument _) => true
  | _ => false

def isOkB {α : Type} : Except PyErr α → Bool
  | .ok _ => true
  | _ => false

/- MetaModel.get_fields (pygasus/schema/model.py lines 85 to 106), primary
   key logic.  The source checks: if no field is primary, then either raise
   ValueError when a field named id exists, or prepend a synthesized integer
   primary field named id; the following elif tests len(primary fields) < 1
   even though its own message speaks of at least two primary keys, so the
   branch can never fire. -/

structure RawField where
  name : String
  ftype : FType
  primaryKey : Bool
  deriving DecidableEq, Repr

def get_fields (fields : List RawField) : Except PyErr (List RawField) :=
  if !(fields.any (fun f => f.primaryKey)) then
    if fields.any (fun f => f.name = ("id")) then .error PyErr.valueError
    else .ok ({ name := "id", ftype := FType.tInt, primaryKey := true } :: fields)
  else if (fields.filter (fun f => f.primaryKey)).length < 1 then
    .error PyErr.valueError
  else .ok fields

/- Rows and Sqlite3Engine.get_row (pygasus/engine/sqlite/engine.py lines 219
   to 261).  A row is the column dict produced by _get_dict_of_values.  The
   WHERE clause built by get_row is a conjunction of equalities, modelled by
   filtering the stored rows; the source then tests
   len(rows) == 0 or len(rows) < 1 and otherwise returns rows[0], even
   though its docstring promises None when more than one row matches. -/

abbrev Row := List (String × PVal)

def rowMatches (filters : Row) (r : Row) : Bool :=
  filters.all (fun cv => decide (lookupA r cv.1 = some cv.2))

def get_row (rows : List Row) (filters : Row) : Option Row :=
  let matched := rows.filter (rowMatches filters)
  if matched.length = 0 ∨ matched.length < 1 then none
  else matched.head?

/- Query expression tree (pygasus/query/query.py).  In the source, a Query
   object carries an operation tag and argument queries, plus a results
   cache; fields and literal values are the leaves.  The tree shape is
   captured by QueryNode, and the executed (root) object by the Query
   structure below, whose results field models self.results. -/

inductive QueryNode where
  | field (name : String) : QueryNode
  | value (v : PVal) : QueryNode
  | equal (a b : QueryNode) : QueryNode
  | contains (a b : QueryNode) : QueryNode
  | lower (a : QueryNode) : QueryNode
  deriving DecidableEq, Repr

/- Calls recorded against the storage engine.  The begin, commit and
   rollback operations carry the nested flag the sqlite engine derives from
   transaction.parent (savepoint versus outer transaction). -/

inductive EngineOp where
  | beginTx (nested : Bool) : EngineOp
  | commitTx (nested : Bool) : EngineOp
  | rollbackTx (nested : Bool) : EngineOp
  | insertRow (values : List (String × PVal)) : EngineOp
  | updateRow (primary : List (String × PVal)) (column : String) (value : PVal) : EngineOp
  | deleteRow (primary : List (String × PVal)) : EngineOp
  | selectRows (q : QueryNode) : EngineOp
  deriving DecidableEq, Repr

/- Transaction (pygasus/schema/transaction.py): a parent pointer and the
   dict from touched instance to its snapshot of field values. -/

inductive Txn where
  | mk (parent : Option Txn) (objects : List (Inst × List (String × PVal))) : Txn

def Txn.parent : Txn → Option Txn
  | .mk p _ => p

def Txn.objects : Txn → List (Inst × List (String × PVal))
  | .mk _ o => o

/- The dynamic state of one Database with one bound model: the scalar field
   memories of the Field descriptors (Field.memory, keyed by instance hash
   and field name), the per-instance _has_init flags, the identity mapper,
   the current transaction, the log of engine calls, the rows stored in the
   engine table and the allocator for fresh Python objects. -/

structure DBState where
  mem : Inst → String → PVal
  hasInit : Inst → Bool
  mapper : IDMapper
  current : Option Txn
  ops : List EngineOp
  rows : List Row
  nextInst : Inst

def memSet (mem : Inst → String → PVal) (i : Inst) (k : String) (v : PVal) :
    Inst → String → PVal :=
  fun j k' => if j = i ∧ k' = k then v else mem j k'

def boolSet (h : Inst → Bool) (i : Inst) (b : Bool) : Inst → Bool :=
  fun j => if j = i then b else h j

/- Model._primary_values: the tuple of values of the primary fields, read
   through Field.__get__, which is Field.memory.get. -/

def primaryValues (fields : List FieldInfo) (st : DBState) (inst : Inst) :
    List PVal :=
  (fields.filter (fun f => f.primaryKey)).map (fun f => st.mem inst f.name)

/- The primary dict {field.name: getattr(instance, field.name)} built by
   Database.update_instance and Database.delete_instance. -/

def primaryNamed (fields : List FieldInfo) (st : DBState) (inst : Inst) :
    List (String × PVal) :=
  (fields.filter (fun f => f.primaryKey)).map (fun f => (f.name, st.mem inst f.name))

/- The snapshot attrs dict {field.name: getattr(instance, field.name)} over
   all fields, taken on first touch inside a transaction. -/

def snapshotAttrs (fields : List FieldInfo) (st : DBState) (inst : Inst) :
    List (String × PVal) :=
  fields.map (fun f => (f.name, st.mem inst f.name))

/- First-touch snapshot logic shared by Database.update_instance and
   Database.delete_instance: when a transaction is current and the instance
   is not yet in transaction.objects, record the snapshot; otherwise leave
   the transaction untouched. -/

def touchCurrent (fields : List FieldInfo) (mem : Inst → String → PVal) :
    Option Txn → Inst → Option Txn
  | none, _ => none
  | some t, inst =>
    match lookupA (Txn.objects t) inst with
    | some _ => some t
    | none =>
        some (Txn.mk (Txn.parent t)
          (Txn.objects t ++ [(inst, fields.map (fun f => (f.name, mem inst f.name)))]))

def snapshotInstance (fields : List FieldInfo) (st : DBState) (inst : Inst) :
    DBState :=
  { st with current := touchCurrent fields st.mem st.current inst }

/- Body of Database.update_instance up to the propagate branch: take the
   first-touch snapshot, prepare the single column for a scalar field and
   send engine.update_row for it. -/

def update_instance_core (fields : List FieldInfo) (st : DBState) (inst : Inst)
    (fname : String) (v : PVal) : DBState :=
  let st1 := snapshotInstance fields st inst
  { st1 with ops := st1.ops ++ [EngineOp.updateRow (primaryNamed fields st1 inst) fname v] }

/- Field.__set__ (pygasus/schema/field.py lines 87 to 100).  The source
   raises SetByDatabase when the field is set by the database and the
   instance has finished init; it then computes instance._primary_values (a
   tuple) and calls mapper.set with it  -  the guard that skips the call
   when a primary value is itself a Field object is identically false,
   because Field.memory never stores Field objects.  When _has_init is true
   it calls Database.update_instance with propagate False, and finally
   writes the value into Field.memory.  An exception leaves the state of the
   steps not yet executed unchanged. -/

def fieldSet (model : ModelId) (fields : List FieldInfo) (st : DBState)
    (inst : Inst) (f : FieldInfo) (v : PVal) : DBState × Option PyErr :=
  if f.set_by_database && st.hasInit inst then (st, some PyErr.setByDatabase)
  else
    match IDMapper.set st.mapper model (PrimArg.tup (primaryValues fields st inst)) inst with
    | .error e => (st, some e)
    | .ok m =>
      let st1 := { st with mapper := m }
      let st2 :=
        if st1.hasInit inst then update_instance_core fields st1 inst f.name v else st1
      ({ st2 with mem := memSet st2.mem inst f.name v }, none)

/- Database.update_instance (pygasus/schema/database.py lines 245 to 274).
   With propagate, the source clears _has_init, assigns the attribute
   (running Field.__set__) and restores _has_init; an exception raised by
   the assignment escapes before _has_init is restored. -/

def update_instance (model : ModelId) (fields : List FieldInfo) (st : DBState)
    (inst : Inst) (f : FieldInfo) (v : PVal) (propagate : Bool) :
    DBState × Option PyErr :=
  let st1 := update_instance_core fields st inst f.name v
  if propagate then
    let st2 := { st1 with hasInit := boolSet st1.hasInit inst false }
    match fieldSet model fields st2 inst f v with
    | (st3, some e) => (st3, some e)
    | (st3, none) => ({ st3 with hasInit := boolSet st3.hasInit inst true }, none)
  else (st1, none)

/- Database.delete_instance (pygasus/schema/database.py lines 276 to 295):
   first-touch snapshot, engine.delete_row on the primary dict, then the
   instance loses _has_init. -/

def delete_instance (fields : List FieldInfo) (st : DBState) (inst : Inst) :
    DBState :=
  let st1 := snapshotInstance fields st inst
  let st2 := { st1 with ops := st1.ops ++ [EngineOp.deleteRow (primaryNamed fields st1 inst)] }
  { st2 with hasInit := boolSet st2.hasInit inst false }

/- Entering a transaction scope: Database.transaction builds
   Transaction(db, parent=current) and Transaction.__enter__ installs it as
   current and tells the engine to begin (savepoint when it has a parent,
   outer transaction otherwise). -/

def txnEnter (st : DBState) : DBState :=
  { st with current := some (Txn.mk st.current [])
          , ops := st.ops ++ [EngineOp.beginTx st.current.isSome] }

/- The restore loop of Transaction.__exit__: for every snapshotted instance,
   clear _has_init, assign every snapshotted attribute back through
   setattr (that is, through Field.__set__), then restore _has_init.  An
   exception raised by an assignment propagates immediately. -/

def restoreAttrs (model : ModelId) (fields : List FieldInfo) (st : DBState)
    (inst : Inst) : List (String × PVal) → DBState × Option PyErr
  | [] => (st, none)
  | (k, v) :: rest =>
    match fields.find? (fun f => f.name == k) with
    | none => restoreAttrs model fields st inst rest
    | some f =>
      match fieldSet model fields st inst f v with
      | (st1, some e) => (st1, some e)
      | (st1, none) => restoreAttrs model fields st1 inst rest

def restoreObjects (model : ModelId) (fields : List FieldInfo) (st : DBState) :
    List (Inst × List (String × PVal)) → DBState × Option PyErr
  | [] => (st, none)
  | (inst, attrs) :: rest =>
    let st1 := { st with hasInit := boolSet st.hasInit inst false }
    match restoreAttrs model fields st1 inst attrs with
    | (st2, some e) => (st2, some e)
    | (st2, none) =>
        restoreObjects model fields
          { st2 with hasInit := boolSet st2.hasInit inst true } rest

/- Transaction.__exit__ (pygasus/schema/transaction.py lines 48 to 59).  The
   current pointer reverts to the parent first.  On normal exit the engine
   commits.  On abnormal exit the snapshots are replayed through setattr and
   then the engine rolls back; an exception raised inside the restore loop
   replaces the original one and the engine rollback line is never reached.
   Returning the original exception models the falsy return of __exit__
   re-raising it. -/

def txnExit (model : ModelId) (fields : List FieldInfo) (st : DBState)
    (exc : Option PyErr) : DBState × Option PyErr :=
  match st.current with
  | none => (st, exc)
  | some t =>
    let st1 := { st with current := Txn.parent t }
    match exc with
    | none => ({ st1 with ops := st1.ops ++ [EngineOp.commitTx (Txn.parent t).isSome] }, none)
    | some e =>
      match restoreObjects model fields st1 (Txn.objects t) with
      | (st2, some e2) => (st2, some e2)
      | (st2, none) =>
          ({ st2 with ops := st2.ops ++ [EngineOp.rollbackTx (Txn.parent t).isSome] }, some e)

/- MetaModel._primary_values_from_dict: the tuple of values of the primary
   fields read from a row dict.  The source indexes data[key] directly; rows
   produced by the engine always carry every column, so a missing key (a
   Python KeyError) cannot occur and the total getD form is faithful. -/

def primaryFromDict (fields : List FieldInfo) (data : Row) : List PVal :=
  (fields.filter (fun f => f.primaryKey)).map
    (fun f => (lookupA data f.name).getD PVal.pnone)

/- Model.__init__ with keyword data (pygasus/schema/model.py lines 226 to
   240): _has_init is cleared, then every scalar value that is not None is
   assigned through setattr, which runs Field.__set__; model-valued entries
   would be assigned in a second loop, but the scalar worlds of the claims
   have none.  The non-full schema bind at entry cannot raise.  _has_init is
   set at the end only when no assignment raised. -/

def setScalars (model : ModelId) (fields : List FieldInfo) (st : DBState)
    (inst : Inst) : Row → DBState × Option PyErr
  | [] => (st, none)
  | (k, v) :: rest =>
    if v = PVal.pnone then setScalars model fields st inst rest
    else
      match fields.find? (fun f => f.name == k) with
      | none => setScalars model fields st inst rest
      | some f =>
        match fieldSet model fields st inst f v with
        | (st1, some e) => (st1, some e)
        | (st1, none) => setScalars model fields st1 inst rest

def materialize (model : ModelId) (fields : List FieldInfo) (st : DBState)
    (data : Row) : DBState × Inst × Option PyErr :=
  let inst := st.nextInst
  let st1 := { st with nextInst := st.nextInst + 1
                     , hasInit := boolSet st.hasInit inst false }
  match setScalars model fields st1 inst data with
  | (st2, some e) => (st2, inst, some e)
  | (st2, none) => ({ st2 with hasInit := boolSet st2.hasInit inst true }, inst, none)

/- Database.get_instance (pygasus/schema/database.py lines 191 to 227).  For
   scalar filters prepare_columns passes the names through unchanged and no
   join arises, so engine.get_row is the filter model above.  When a row is
   found, the primary tuple is computed and handed to IDMapper.get; a cache
   hit returns the cached instance, otherwise the model is materialized from
   the row and registered through IDMapper.set. -/

def get_instance (model : ModelId) (fields : List FieldInfo) (st : DBState)
    (filters : List (String × PVal)) : Option Inst × DBState × Option PyErr :=
  match get_row st.rows filters with
  | none => (none, st, none)
  | some data =>
    let primary := primaryFromDict fields data
    match IDMapper.get st.mapper model (PrimArg.tup primary) with
    | .error e => (none, st, some e)
    | .ok (some inst) => (some inst, st, none)
    | .ok none =>
      match materialize model fields st data with
      | (st1, _, some e) => (none, st1, some e)
      | (st1, inst, none) =>
        match IDMapper.set st1.mapper model (PrimArg.tup primary) inst with
        | .error e => (none, st1, some e)
        | .ok m => (some inst, { st1 with mapper := m }, none)

/- SQL evaluation of a query tree by the sqlite engine: the QueryWalker
   turns equality into =, contains into INSTR and lower into the injected
   PYLOWER function, and select_rows filters the table rows by the truth of
   the resulting WHERE clause.  Char.toLower approximates the Python
   str.lower used by PYLOWER; no claim depends on the case-mapping table. -/

def strLower (s : String) : String :=
  s.map Char.toLower

def strContains (s sub : String) : Bool :=
  decide (sub = ("")) || decide ((s.splitOn sub).length > 1)

def evalNode (r : Row) : QueryNode → PVal
  | .field n => (lookupA r n).getD PVal.pnone
  | .value v => v
  | .equal a b => if evalNode r a = evalNode r b then PVal.pint 1 else PVal.pint 0
  | .contains a b =>
    match evalNode r a, evalNode r b with
    | PVal.pstr s, PVal.pstr sub =>
        if strContains s sub then PVal.pint 1 else PVal.pint 0
    | _, _ => PVal.pint 0
  | .lower a =>
    match evalNode r a with
    | PVal.pstr s => PVal.pstr (strLower s)
    | v => v

def truthy : PVal → Bool
  | PVal.pint n => decide (n ≠ 0)
  | _ => false

def select_rows (rows : List Row) (q : QueryNode) : List Row :=
  rows.filter (fun r => truthy (evalNode r q))

/- The executed query object: the predicate tree plus the results cache the
   source keeps in self.results. -/

structure Query where
  node : QueryNode
  results : Option (List Inst)
  deriving Repr

/- The node builders Query.__eq__, Query.contains and Query.lower: pure
   constructions that take no engine or database state at all. -/

def Query.eqNode (a b : QueryNode) : Query :=
  { node := QueryNode.equal a b, results := none }

def Query.containsNode (a b : QueryNode) : Query :=
  { node := QueryNode.contains a b, results := none }

def Query.lowerNode (a : QueryNode) : Query :=
  { node := QueryNode.lower a, results := none }

/- The row loop of Query.execute: each row yields its primary tuple, the
   identity map is consulted with it, and on a miss the instance is
   materialized and registered. -/

def executeLoop (model : ModelId) (fields : List FieldInfo) (st : DBState) :
    List Row → DBState × Except PyErr (List Inst)
  | [] => (st, .ok [])
  | data :: rest =>
    let primary := primaryFromDict fields data
    match IDMapper.get st.mapper model (PrimArg.tup primary) with
    | .error e => (st, .error e)
    | .ok (some inst) =>
      match executeLoop model fields st rest with
      | (st1, .ok l) => (st1, .ok (inst :: l))
      | (st1, .error e) => (st1, .error e)
    | .ok none =>
      match materialize model fields st data with
      | (st1, _, some e) => (st1, .error e)
      | (st1, inst, none) =>
        match IDMapper.set st1.mapper model (PrimArg.tup primary) inst with
        | .error e => (st1, .error e)
        | .ok m =>
          match executeLoop model fields { st1 with mapper := m } rest with
          | (st2, .ok l) => (st2, .ok (inst :: l))
          | (st2, .error e) => (st2, .error e)

/- Query.execute (pygasus/query/query.py lines 80 to 109): a filled cache is
   returned as is; otherwise the engine runs select_rows once, the row loop
   converts rows to instances, and only on success is the list stored into
   self.results  -  an exception escapes before the assignment, leaving the
   cache unset. -/

def Query.execute (model : ModelId) (fields : List FieldInfo) (st : DBState)
    (q : Query) : Query × DBState × Except PyErr (List Inst) :=
  match q.results with
  | some res => (q, st, .ok res)
  | none =>
    let rows := select_rows st.rows q.node
    let st1 := { st with ops := st.ops ++ [EngineOp.selectRows q.node] }
    match executeLoop model fields st1 rows with
    | (st2, .error e) => ({ q with results := none }, st2, .error e)
    | (st2, .ok res) => ({ q with results := some res }, st2, .ok res)

/- One-to-one relationship descriptors (pygasus/schema/field.py lines 121 to
   173) for a Book.author / Author.book mirror pair as resolved by
   MetaModel.complete_fields.  Each HasOne descriptor has its own memory
   dict, keyed by instance hash and holding either a primary-value tuple of
   the opposite instance or None; hash(None) is a valid dict key, hence the
   Option Inst key type.  The scalar memories and the mapper are shared. -/

structure HOState where
  mem : Inst → String → PVal
  authorMem : List (Option Inst × PrimArg)
  bookMem : List (Option Inst × PrimArg)
  mapper : IDMapper
  ops : List EngineOp

def hoPrimary (fields : List FieldInfo) (st : HOState) (inst : Inst) :
    List PVal :=
  (fields.filter (fun f => f.primaryKey)).map (fun f => st.mem inst f.name)

def hoPrimaryNamed (fields : List FieldInfo) (st : HOState) (inst : Inst) :
    List (String × PVal) :=
  (fields.filter (fun f => f.primaryKey)).map (fun f => (f.name, st.mem inst f.name))

/- HasOne.__get__ on the Author.book side: an absent memory entry means the
   attribute was never touched, so None is returned and cached; a present
   entry (a tuple or None) is handed to IDMapper.get, whose .values() call
   then raises AttributeError. -/

def hasOneGetBook (st : HOState) (inst : Inst) :
    HOState × Except PyErr (Option Inst) :=
  match lookupA st.bookMem (some inst) with
  | none =>
      ({ st with bookMem := assocSet st.bookMem (some inst) PrimArg.pynone }, .ok none)
  | some primary =>
    match IDMapper.get st.mapper ("Book") primary with
    | .error e => (st, .error e)
    | .ok v => (st, .ok v)

/- HasOne.__set__ for book.author = value (pygasus/schema/field.py lines 151
   to 172).  The source computes the primary tuple of the assigned value,
   looks up the previous reciprocal links through IDMapper.get, clears them,
   stores the link in its own memory and, when the value is truthy, writes
   the mirror through Database.update_instance (modelled by its engine
   update of the foreign-key column; the call site is never reached because
   the IDMapper.get calls above always raise), stores the back link and
   registers the value in the mapper. -/

def hasOneSetAuthor (bookFields authorFields : List FieldInfo) (st : HOState)
    (inst : Inst) (value : Option Inst) : HOState × Option PyErr :=
  let primary : PrimArg :=
    match value with
    | some v => PrimArg.tup (hoPrimary authorFields st v)
    | none => PrimArg.pynone
  match IDMapper.get st.mapper ("Book") ((lookupA st.bookMem value).getD PrimArg.pynone) with
  | .error e => (st, some e)
  | .ok oldValue =>
    match IDMapper.get st.mapper ("Author") ((lookupA st.authorMem (some inst)).getD PrimArg.pynone) with
    | .error e => (st, some e)
    | .ok oldMirror =>
      let st1 :=
        match oldValue with
        | some ov => { st with authorMem := assocSet st.authorMem (some ov) PrimArg.pynone }
        | none => st
      let st2 :=
        match oldMirror with
        | some om => { st1 with bookMem := assocSet st1.bookMem (some om) PrimArg.pynone }
        | none => st1
      let st3 := { st2 with authorMem := assocSet st2.authorMem (some inst) primary }
      match value with
      | none => (st3, none)
      | some v =>
        let st4 := { st3 with ops := st3.ops ++
            [EngineOp.updateRow (hoPrimaryNamed authorFields st3 v) ("book") (PVal.pint (Int.ofNat inst))] }
        let back := PrimArg.tup (hoPrimary bookFields st4 inst)
        let st5 := { st4 with bookMem := assocSet st4.bookMem (some v) back }
        match IDMapper.set st5.mapper ("Author") primary v with
        | .error e => (st5, some e)
        | .ok m => ({ st5 with mapper := m }, none)

/- Concrete inputs used to evaluate the claims. -/

def carFields : List FieldInfo :=
  [{ name := "id", ftype := FType.tInt, primaryKey := true, default := none },
   { name := "name", ftype := FType.tStr, primaryKey := false, default := none }]

def c1state : DBState :=
  { mem := fun _ _ => PVal.pnone
  , hasInit := fun _ => false
  , mapper := { objects := [] }
  , current := none
  , ops := []
  , rows := [[("id", PVal.pint 1), ("name", PVal.pint 77)]]
  , nextInst := 0 }

def prodFields : List FieldInfo :=
  [{ name := "id", ftype := FType.tInt, primaryKey := true, default := none },
   { name := "price", ftype := FType.tInt, primaryKey := false, default := none }]

def c2base : DBState :=
  { mem := fun i k =>
      if i = 0 ∧ k = ("id") then PVal.pint 1
      else if i = 0 ∧ k = ("price") then PVal.pint 10
      else PVal.pnone
  , hasInit := fun i => decide (i = 0)
  , mapper := { objects := [] }
  , current := none
  , ops := []
  , rows := []
  , nextInst := 1 }

def c2inTxn : DBState := txnEnter c2base

def c2touched : DBState := delete_instance prodFields c2inTxn 0

def c3state : DBState :=
  { mem := fun i k =>
      if i = 0 ∧ k = ("id") then PVal.pint 1
      else if i = 0 ∧ k = ("price") then PVal.pint 10
      else PVal.pnone
  , hasInit := fun i => decide (i = 0)
  , mapper := { objects := [] }
  , current := some (Txn.mk none [])
  , ops := []
  , rows := []
  , nextInst := 1 }

def c3priceField : FieldInfo :=
  { name := "price", ftype := FType.tInt, primaryKey := false, default := none }

def c4fields : List FieldInfo := carFields

def c4kwForb : List (String × PVal) :=
  [("id", PVal.pint 5), ("name", PVal.pint 6)]

def c4state : DBState :=
  { mem := fun _ _ => PVal.pnone
  , hasInit := fun i => decide (i = 0)
  , mapper := { objects := [] }
  , current := none
  , ops := []
  , rows := []
  , nextInst := 1 }

def c4idField : FieldInfo :=
  { name := "id", ftype := FType.tInt, primaryKey := true, default := none }

def c4nameField : FieldInfo :=
  { name := "name", ftype := FType.tStr, primaryKey := false, default := none }

def c5rows : List Row :=
  [[("id", PVal.pint 1), ("name", PVal.pint 77)],
   [("id", PVal.pint 2), ("name", PVal.pint 77)]]

def c6fields : List RawField :=
  [{ name := "a", ftype := FType.tInt, primaryKey := true },
   { name := "b", ftype := FType.tInt, primaryKey := true }]

def c7query : Query :=
  Query.eqNode (QueryNode.field ("name")) (QueryNode.value (PVal.pint 77))

def c7state : DBState := c1state

def c8idField : List FieldInfo :=
  [{ name := "id", ftype := FType.tInt, primaryKey := true, default := none }]

def c8state : HOState :=
  { mem := fun i k =>
      if i = 0 ∧ k = ("id") then PVal.pint 3
      else if i = 1 ∧ k = ("id") then PVal.pint 7
      else PVal.pnone
  , authorMem := []
  , bookMem := []
  , mapper := { objects := [] }
  , ops := [] }

def c8linked : HOState :=
  { c8state with bookMem := [(some 1, PrimArg.tup [PVal.pint 3])] }

def c9mapper : IDMapper :=
  { objects := [("Car", [([PVal.pint 1], 0)])] }

def c10fields : List FieldInfo :=
  [{ name := "code", ftype := FType.tStr, primaryKey := true, default := none }]

def c10codeField : FieldInfo :=
  { name := "code", ftype := FType.tStr, primaryKey := true, default := none }

/- Helper lemmas (not tied to a single claim). -/

/- Every call of IDMapper.get whose primary argument is a tuple raises
   AttributeError: tuple objects have no .values method. -/

theorem mapperGetTup (m : IDMapper) (model : ModelId) (key : List PVal) :
    IDMapper.get m model (PrimArg.tup key) = .error PyErr.attributeError := rfl

theorem mapperGetNone (m : IDMapper) (model : ModelId) :
    IDMapper.get m model PrimArg.pynone = .error PyErr.attributeError := rfl

theorem mapperSetTup (m : IDMapper) (model : ModelId) (key : List PVal) (i : Inst) :
    IDMapper.set m model (PrimArg.tup key) i = .error PyErr.attributeError := rfl

/- Field.__set__ never completes: either the set-by-database guard fires, or
   the IDMapper.set call on the primary-value tuple raises AttributeError
   before any mutation, so the state is always returned unchanged. -/

theorem fieldSet_spec (model : ModelId) (fields : List FieldInfo) (st : DBState)
    (inst : Inst) (f : FieldInfo) (v : PVal) :
    fieldSet model fields st inst f v
      = (st, some (if f.set_by_database && st.hasInit inst then PyErr.setByDatabase
                   else PyErr.attributeError)) := by
  by_cases h : (f.set_by_database && st.hasInit inst) = true
  · simp [fieldSet, h]
  · simp [fieldSet, h, IDMapper.set, IDMapper.get, PrimArg.values]

theorem update_instance_keeps (model : ModelId) (fields : List FieldInfo)
    (st : DBState) (inst : Inst) (f : FieldInfo) (v : PVal) (p : Bool) :
    (update_instance model fields st inst f v p).1.current
      = touchCurrent fields st.mem st.current inst := by
  cases p
  · rfl
  · simp [update_instance, update_instance_core, snapshotInstance, fieldSet_spec]

theorem delete_instance_keeps (fields : List FieldInfo) (st : DBState) (inst : Inst) :
    (delete_instance fields st inst).current
      = touchCurrent fields st.mem st.current inst := rfl

/-- C1: the claim says two independent get calls with the same primary key
return the identical live instance because get_instance consults the
identity map.  On the code this fails at the very first fetch: with one
matching Car row, get_instance hands the primary-key tuple to IDMapper.get,
whose tuple(primary.values()) call raises AttributeError, so no instance is
returned at all (and the identity guarantee asserted by test_mapper can
never be observed). -/
theorem C1_get_instance_raises :
    (get_instance ("Car") carFields c1state [("id", PVal.pint 1)]).1 = none
    ∧ (get_instance ("Car") carFields c1state [("id", PVal.pint 1)]).2.2
        = some PyErr.attributeError := ⟨rfl, rfl⟩

/-- C2: the claim says an abnormal transaction exit restores every
snapshotted instance, tells the engine to roll back and re-raises the
original exception.  On the code, the restore loop assigns attributes
through Field.__set__, which calls IDMapper.set with a primary-value tuple
and raises AttributeError; the engine rollback line is never reached (the
op log below ends with the deleteRow that was issued inside the
transaction) and the AttributeError replaces the original user exception.
Only the reversion of the current-transaction pointer survives. -/
theorem C2_rollback_raises :
    (txnExit ("Product") prodFields c2touched (some PyErr.userError)).2
        = some PyErr.attributeError
    ∧ (txnExit ("Product") prodFields c2touched (some PyErr.userError)).1.ops
        = [EngineOp.beginTx false, EngineOp.deleteRow [("id", PVal.pint 1)]]
    ∧ (txnExit ("Product") prodFields c2touched (some PyErr.userError)).1.current
        = none := ⟨rfl, rfl, rfl⟩

/-- C5: the claim (and the docstring of Sqlite3Engine.get_row) says that a
row is returned only when exactly one row matches, and that an ambiguous
match of more than one row yields none.  The code tests
len(rows) == 0 or len(rows) < 1, which only ever catches the empty case, so
with two rows matching the filter it returns the first row instead of
none. -/
theorem C5_get_row_ambiguous :
    get_row c5rows [("name", PVal.pint 77)]
      = some [("id", PVal.pint 1), ("name", PVal.pint 77)]
    ∧ get_row c5rows [("id", PVal.pint 2)]
      = some [("id", PVal.pint 2), ("name", PVal.pint 77)]
    ∧ get_row c5rows [("id", PVal.pint 3)] = none := ⟨rfl, rfl, rfl⟩

/-- C6: the claim says a model with more than one primary-key field is
rejected with a definition error.  The code checks
elif len(primary fields) < 1 instead of greater than one, even though its
own error message speaks of at least two primary keys, so a model with two
primary-key fields is accepted unchanged. -/
theorem C6_two_primary_keys_accepted :
    get_fields c6fields = .ok c6fields := rfl

/- The duplicate-primary-key branch of get_fields is dead code: whenever at
   least one field is primary, get_fields returns the fields unchanged. -/

theorem get_fields_duplicate_branch_dead (fs : List RawField)
    (h : fs.any (fun f => f.primaryKey) = true) : get_fields fs = .ok fs := by
  obtain ⟨x, hx, hpx⟩ := List.any_eq_true.mp h
  have hmem : x ∈ fs.filter (fun f => f.primaryKey) :=
    List.mem_filter.mpr ⟨hx, hpx⟩
  have hlen : (fs.filter (fun f => f.primaryKey)).length ≠ 0 :=
    Nat.pos_iff_ne_zero.mp (List.length_pos.mpr (List.ne_nil_of_mem hmem))
  simp [get_fields, h, Nat.lt_one_iff, hlen]

/- The synthesis half of the same scan does work as described: with no
   primary field and no field named id, an integer primary field named id is
   prepended, and an existing id field without the primary marker is a
   definition error. -/

theorem get_fields_synthesizes_id :
    get_fields [{ name := "name", ftype := FType.tStr, primaryKey := false }]
      = .ok [{ name := "id", ftype := FType.tInt, primaryKey := true },
             { name := "name", ftype := FType.tStr, primaryKey := false }]
    ∧ get_fields [{ name := "id", ftype := FType.tStr, primaryKey := false }]
      = .error PyErr.valueError := ⟨rfl, rfl⟩

/-- C7: the claim says executing a query contacts the engine exactly once,
caches the result list on the query object, and resolves each row through
the identity map.  Building the node is indeed pure (Query.eqNode takes no
state), and the engine select is issued, but the row loop then hands the
primary-key tuple to IDMapper.get, which raises AttributeError: the
execution fails, the cache stays unset (so a second iteration would contact
the engine again), and no instance is ever produced or registered. -/
theorem C7_execute_raises :
    (Query.execute ("Car") carFields c7state c7query).2.2
        = .error PyErr.attributeError
    ∧ (Query.execute ("Car") carFields c7state c7query).1.results = none
    ∧ (Query.execute ("Car") carFields c7state c7query).2.1.ops
        = [EngineOp.selectRows c7query.node] := ⟨rfl, rfl, rfl⟩

/-- C8: the claim says assigning one side of a one-to-one relation links the
two instances reciprocally and clears previous links.  On the code,
HasOne.__set__ begins by looking up the previous links through IDMapper.get,
passing the stored primary tuple or None; .values() raises AttributeError on
either, so the assignment raises before establishing any link and the state
is unchanged.  Reciprocal access is equally broken: once a HasOne memory
holds a link, HasOne.__get__ passes it to IDMapper.get and raises too. -/
theorem C8_hasone_raises :
    hasOneSetAuthor c8idField c8idField c8state 0 (some 1)
      = (c8state, some PyErr.attributeError)
    ∧ (hasOneGetBook c8linked 1).2 = .error PyErr.attributeError := ⟨rfl, rfl⟩

/-- C9 counterexample: the claim says IDMapper.delete is a no-op raising no
exception when no entry exists for the key.  With a Car bucket holding only
the key tuple (1,), deleting the key tuple (2,) (passed as the primary dict
the method documents) reaches objects.pop(fields) with no default and
raises KeyError. -/
theorem C9_delete_keyerror :
    IDMapper.delete c9mapper ("Car") (PrimArg.dict [("id", PVal.pint 2)])
      = .error PyErr.keyError := rfl

/- A successful full bind certifies that no field was a missing required one
   and none was a supplied storage-assigned one. -/

theorem bind_ok_clean (kwargs : List (String × PVal)) :
    ∀ (fields : List FieldInfo) (out : List (String × PVal)),
      bindFields fields kwargs true = .ok out →
      ∀ f ∈ fields,
        missingRequiredB kwargs f = false ∧ suppliedForbiddenB kwargs f = false := by
  intro fields
  induction fields with
  | nil => intro out _ f hf; exact absurd hf (List.not_mem_nil f)
  | cons a rest ih =>
    intro out h f hf
    rw [List.mem_cons] at hf
    cases hk : lookupA kwargs a.name with
    | some v =>
      simp only [bindFields, hk, Bool.true_and] at h
      cases hsbd : a.set_by_database with
      | true => rw [hsbd] at h; simp at h
      | false =>
        rw [hsbd] at h
        simp only [if_false, Bool.false_eq_true] at h
        cases hr : bindFields rest kwargs true with
        | error e => rw [hr] at h; simp at h
        | ok tail =>
          rcases hf with rfl | hfr
          · simp [missingRequiredB, suppliedForbiddenB, hk, hsbd]
          · exact ih tail hr f hfr
    | none =>
      simp only [bindFields, hk, Bool.not_true, Bool.false_eq_true, if_false] at h
      cases hd : a.default with
      | some d =>
        rw [hd] at h
        cases hr : bindFields rest kwargs true with
        | error e => rw [hr] at h; simp at h
        | ok tail =>
          rcases hf with rfl | hfr
          · simp [missingRequiredB, suppliedForbiddenB, hk, hd]
          · exact ih tail hr f hfr
      | none =>
        rw [hd] at h
        cases hsbd : a.set_by_database with
        | true =>
          rw [hsbd] at h
          simp only [if_true] at h
          rcases hf with rfl | hfr
          · simp [missingRequiredB, suppliedForbiddenB, hk, hd, hsbd]
          · exact ih out h f hfr
        | false => rw [hsbd] at h; simp at h

/- When no field is a supplied storage-assigned one, a missing required
   field makes the full bind fail with a MissingArgument error. -/

theorem bind_missing (kwargs : List (String × PVal)) :
    ∀ (fields : List FieldInfo),
      (∀ g ∈ fields, suppliedForbiddenB kwargs g = false) →
      ∀ f ∈ fields, missingRequiredB kwargs f = true →
      isMissingError (bindFields fields kwargs true) = true := by
  intro fields
  induction fields with
  | nil => intro _ f hf; exact absurd hf (List.not_mem_nil f)
  | cons a rest ih =>
    intro hnf f hf hm
    have hnfa : suppliedForbiddenB kwargs a = false := hnf a (List.mem_cons_self a rest)
    have hnfr : ∀ g ∈ rest, suppliedForbiddenB kwargs g = false :=
      fun g hg => hnf g (List.mem_cons_of_mem a hg)
    rw [List.mem_cons] at hf
    cases hk : lookupA kwargs a.name with
    | some v =>
      have hsbd : a.set_by_database = false := by
        simpa [suppliedForbiddenB, hk] using hnfa
      have hfr : f ∈ rest := by
        rcases hf with rfl | hfr
        · simp [missingRequiredB, hk] at hm
        · exact hfr
      have hrec := ih hnfr f hfr hm
      simp only [bindFields, hk, hsbd, Bool.true_and, if_false, Bool.false_eq_true]
      cases hr : bindFields rest kwargs true with
      | error e => rw [hr] at hrec; simpa using hrec
      | ok tail => rw [hr] at hrec; simp [isMissingError] at hrec
    | none =>
      cases hd : a.default with
      | some d =>
        have hfr : f ∈ rest := by
          rcases hf with rfl | hfr
          · simp [missingRequiredB, hk, hd] at hm
          · exact hfr
        have hrec := ih hnfr f hfr hm
        simp only [bindFields, hk, hd, Bool.not_true, Bool.false_eq_true, if_false]
        cases hr : bindFields rest kwargs true with
        | error e => rw [hr] at hrec; simpa using hrec
        | ok tail => rw [hr] at hrec; simp [isMissingError] at hrec
      | none =>
        cases hsbd : a.set_by_database with
        | true =>
          have hfr : f ∈ rest := by
            rcases hf with rfl | hfr
            · simp [missingRequiredB, hk, hd, hsbd] at hm
            · exact hfr
          have hrec := ih hnfr f hfr hm
          simpa [bindFields, hk, hd, hsbd] using hrec
        | false =>
          simp [bindFields, hk, hd, hsbd, isMissingError]

/- When no field is a missing required one, a supplied storage-assigned
   field makes the full bind fail with a ForbiddenArgument error. -/

theorem bind_forbidden (kwargs : List (String × PVal)) :
    ∀ (fields : List FieldInfo),
      (∀ g ∈ fields, missingRequiredB kwargs g = false) →
      ∀ f ∈ fields, suppliedForbiddenB kwargs f = true →
      isForbiddenError (bindFields fields kwargs true) = true := by
  intro fields
  induction fields with
  | nil => intro _ f hf; exact absurd hf (List.not_mem_nil f)
  | cons a rest ih =>
    intro hnm f hf hs
    have hnma : missingRequiredB kwargs a = false := hnm a (List.mem_cons_self a rest)
    have hnmr : ∀ g ∈ rest, missingRequiredB kwargs g = false :=
      fun g hg => hnm g (List.mem_cons_of_mem a hg)
    rw [List.mem_cons] at hf
    cases hk : lookupA kwargs a.name with
    | some v =>
      cases hsbd : a.set_by_database with
      | true => simp [bindFields, hk, hsbd, isForbiddenError]
      | false =>
        have hfr : f ∈ rest := by
          rcases hf with rfl | hfr
          · simp [suppliedForbiddenB, hk, hsbd] at hs
          · exact hfr
        have hrec := ih hnmr f hfr hs
        simp only [bindFields, hk, hsbd, Bool.true_and, if_false, Bool.false_eq_true]
        cases hr : bindFields rest kwargs true with
        | error e => rw [hr] at hrec; simpa using hrec
        | ok tail => rw [hr] at hrec; simp [isForbiddenError] at hrec
    | none =>
      have hfr : f ∈ rest := by
        rcases hf with rfl | hfr
        · simp [suppliedForbiddenB, hk] at hs
        · exact hfr
      have hrec := ih hnmr f hfr hs
      cases hd : a.default with
      | some d =>
        simp only [bindFields, hk, hd, Bool.not_true, Bool.false_eq_true, if_false]
        cases hr : bindFields rest kwargs true with
        | error e => rw [hr] at hrec; simpa using hrec
        | ok tail => rw [hr] at hrec; simp [isForbiddenError] at hrec
      | none =>
        cases hsbd : a.set_by_database with
        | true => simpa [bindFields, hk, hd, hsbd] using hrec
        | false =>
          exfalso
          have := hnma
          simp [missingRequiredB, hk, hd, hsbd] at this

/-- C3: while a transaction is current, the first touch of an instance by
Database.update_instance or Database.delete_instance records a snapshot of
all its current field values, taken from the pre-mutation state, and any
later touch of the same instance inside the same transaction leaves the
recorded snapshot (and the whole transaction object map) unchanged. -/
theorem C3_snapshot_first_touch (model : ModelId) (fields : List FieldInfo)
    (st : DBState) (inst : Inst) (f : FieldInfo) (v : PVal) (p : Bool) (t : Txn)
    (h : st.current = some t) :
    (lookupA (Txn.objects t) inst = none →
      (update_instance model fields st inst f v p).1.current
        = some (Txn.mk (Txn.parent t) (Txn.objects t ++ [(inst, snapshotAttrs fields st inst)]))
      ∧ (delete_instance fields st inst).current
        = some (Txn.mk (Txn.parent t) (Txn.objects t ++ [(inst, snapshotAttrs fields st inst)])))
    ∧ (∀ a, lookupA (Txn.objects t) inst = some a →
      (update_instance model fields st inst f v p).1.current = some t
      ∧ (delete_instance fields st inst).current = some t) := by
  constructor
  · intro hnone
    rw [update_instance_keeps, delete_instance_keeps, h]
    simp [touchCurrent, hnone, snapshotAttrs]
  · intro a ha
    rw [update_instance_keeps, delete_instance_keeps, h]
    simp [touchCurrent, ha]

/-- C3 witness: a concrete first touch inside a fresh transaction. -/
theorem C3_snapshot_first_touch_witness :
    (update_instance ("Product") prodFields c3state 0 c3priceField (PVal.pint 3) false).1.current
      = some (Txn.mk none [(0, [("id", PVal.pint 1), ("price", PVal.pint 10)])])
    ∧ (delete_instance prodFields c3state 0).current
      = some (Txn.mk none [(0, [("id", PVal.pint 1), ("price", PVal.pint 10)])]) := by
  have h := (C3_snapshot_first_touch ("Product") prodFields c3state 0 c3priceField
      (PVal.pint 3) false (Txn.mk none []) rfl).1 rfl
  exact ⟨h.1, h.2⟩

/-- C4: a full creation bind fails with a MissingArgument error when some
required field got no value, has no default and is not storage-assigned
(given that no storage-assigned field was supplied, which would be reported
first), fails with a ForbiddenArgument error when a storage-assigned field
was supplied a value (given no missing required field), and after init any
direct assignment of a storage-assigned field raises SetByDatabase.  The
bind errors are raised before the engine or the identity map is touched, so
they do reach the caller of Model.create. -/
theorem C4_creation_errors (fields : List FieldInfo) (kwargs : List (String × PVal)) :
    ((∀ g ∈ fields, suppliedForbiddenB kwargs g = false) →
      ∀ f ∈ fields, missingRequiredB kwargs f = true →
        isMissingError (bindFields fields kwargs true) = true)
    ∧ ((∀ g ∈ fields, missingRequiredB kwargs g = false) →
      ∀ f ∈ fields, suppliedForbiddenB kwargs f = true →
        isForbiddenError (bindFields fields kwargs true) = true)
    ∧ (∀ (model : ModelId) (st : DBState) (inst : Inst) (f : FieldInfo) (v : PVal),
        f.set_by_database = true → st.hasInit inst = true →
        fieldSet model fields st inst f v = (st, some PyErr.setByDatabase)) := by
  refine ⟨bind_missing kwargs fields, bind_forbidden kwargs fields, ?_⟩
  intro model st inst f v hsbd hinit
  simp [fieldSet, hsbd, hinit]

/-- C4 witness: the Car schema misses the required name field, or supplies
the storage-assigned id field, or assigns id after init. -/
theorem C4_creation_errors_witness :
    isMissingError (bindFields c4fields [] true) = true
    ∧ isForbiddenError (bindFields c4fields c4kwForb true) = true
    ∧ fieldSet ("Car") c4fields c4state 0 c4idField (PVal.pint 9)
        = (c4state, some PyErr.setByDatabase) := by
  refine ⟨?_, ?_, ?_⟩
  · exact (C4_creation_errors c4fields []).1 (by decide) c4nameField (by decide) (by decide)
  · exact (C4_creation_errors c4fields c4kwForb).2.1 (by decide) c4idField (by decide) (by decide)
  · exact (C4_creation_errors c4fields c4kwForb).2.2 ("Car") c4state 0 c4idField
      (PVal.pint 9) (by decide) rfl

/-- C9 amended: IDMapper.delete, called with the primary dict its docstring
documents, removes and returns the existing entry when one is present, and
is a no-op returning none when the model has no bucket at all; but when the
model has a bucket with no entry for the key it raises KeyError instead of
being a no-op, and when handed a bare primary tuple (as the spec phrases
the interface) it raises AttributeError. -/
theorem C9_delete_behavior (m : IDMapper) (model : ModelId)
    (entries : List (String × PVal)) :
    (lookupA m.objects model = none →
      IDMapper.delete m model (PrimArg.dict entries) = .ok (none, m))
    ∧ (∀ bucket, lookupA m.objects model = some bucket →
        (lookupA bucket (entries.map Prod.snd) = none →
          IDMapper.delete m model (PrimArg.dict entries) = .error PyErr.keyError)
        ∧ (∀ i, lookupA bucket (entries.map Prod.snd) = some i →
          IDMapper.delete m model (PrimArg.dict entries)
            = .ok (some i, { objects := assocSet m.objects model (eraseA bucket (entries.map Prod.snd)) })))
    ∧ (∀ key : List PVal,
        IDMapper.delete m model (PrimArg.tup key) = .error PyErr.attributeError) := by
  refine ⟨?_, ?_, fun key => rfl⟩
  · intro h
    simp [IDMapper.delete, PrimArg.values, h]
  · intro bucket hb
    constructor
    · intro hk
      simp [IDMapper.delete, PrimArg.values, hb, hk]
    · intro i hk
      simp [IDMapper.delete, PrimArg.values, hb, hk]

/-- C9 amended witness: deleting the present key removes and returns it;
deleting from a model with no bucket is a no-op; a tuple argument raises. -/
theorem C9_delete_behavior_witness :
    IDMapper.delete c9mapper ("Car") (PrimArg.dict [("id", PVal.pint 1)])
      = .ok (some 0, { objects := [("Car", ([] : List (List PVal × Inst)))] })
    ∧ IDMapper.delete { objects := [] } ("Car") (PrimArg.dict [("id", PVal.pint 1)])
      = .ok (none, { objects := [] })
    ∧ IDMapper.delete c9mapper ("Car") (PrimArg.tup [PVal.pint 1])
      = .error PyErr.attributeError := by
  refine ⟨?_, ?_, ?_⟩
  · exact ((C9_delete_behavior c9mapper ("Car") [("id", PVal.pint 1)]).2.1
      [([PVal.pint 1], 0)] rfl).2 0 rfl
  · exact (C9_delete_behavior { objects := [] } ("Car") [("id", PVal.pint 1)]).1 rfl
  · exact (C9_delete_behavior c9mapper ("Car") [("id", PVal.pint 1)]).2.2 [PVal.pint 1]

/-- C10: a field is storage-assigned exactly when its value type is integer
and it is marked primary key; consequently a supplied integer primary key
makes the full bind fail (ForbiddenArgument somewhere in the scan), while a
primary key of non-integer type is never storage-assigned and, with no
default and no supplied value, makes the full bind fail as missing. -/
theorem C10_sbd_iff (fields : List FieldInfo) (kwargs : List (String × PVal))
    (f : FieldInfo) :
    (f.set_by_database = true ↔ (f.ftype = FType.tInt ∧ f.primaryKey = true))
    ∧ (f ∈ fields → f.ftype = FType.tInt → f.primaryKey = true →
        (lookupA kwargs f.name).isSome = true →
        isOkB (bindFields fields kwargs true) = false)
    ∧ (f.ftype ≠ FType.tInt → f.set_by_database = false)
    ∧ (f ∈ fields → f.primaryKey = true → f.ftype ≠ FType.tInt → f.default = none →
        lookupA kwargs f.name = none →
        isOkB (bindFields fields kwargs true) = false) := by
  refine ⟨?_, ?_, ?_, ?_⟩
  · unfold FieldInfo.set_by_database
    by_cases h : f.ftype = FType.tInt <;> simp [h]
  · intro hf hint hpk hsup
    cases hres : bindFields fields kwargs true with
    | error e => simp [isOkB]
    | ok out =>
      have hclean := (bind_ok_clean kwargs fields out hres f hf).2
      rw [suppliedForbiddenB, hsup] at hclean
      simp [FieldInfo.set_by_database, hint, hpk] at hclean
  · intro h
    simp [FieldInfo.set_by_database, h]
  · intro hf hpk hnint hdef hmiss
    cases hres : bindFields fields kwargs true with
    | error e => simp [isOkB]
    | ok out =>
      have hclean := (bind_ok_clean kwargs fields out hres f hf).1
      rw [missingRequiredB, hmiss, hdef] at hclean
      simp [FieldInfo.set_by_database, hnint] at hclean

/-- C10 witness: the integer primary key id is storage-assigned and rejects
a supplied value; a string primary key is not storage-assigned and must be
supplied. -/
theorem C10_sbd_iff_witness :
    (c4idField.set_by_database = true ↔ (c4idField.ftype = FType.tInt ∧ c4idField.primaryKey = true))
    ∧ isOkB (bindFields c4fields c4kwForb true) = false
    ∧ c10codeField.set_by_database = false
    ∧ isOkB (bindFields c10fields [] true) = false := by
  refine ⟨(C10_sbd_iff c4fields c4kwForb c4idField).1, ?_, ?_, ?_⟩
  · exact (C10_sbd_iff c4fields c4kwForb c4idField).2.1 (by decide) rfl rfl (by decide)
  · exact (C10_sbd_iff c10fields [] c10codeField).2.2.1 (by decide)
  · exact (C10_sbd_iff c10fields [] c10codeField).2.2.2 (by decide) rfl (by decide) rfl rfl

end Pygasus
